import Mathlib

/-!
Verification development for JunctionGUI (`src/junctiongui.py`).

The program moves a directory's contents to a new location and replaces the
original path with an NTFS junction created by an external `mklink /j` shell
command. A background `Worker` thread consumes `(link_name, dest_path)` tasks
from an inbound queue, performs remove-target / move / create-junction, and
publishes one result per task on an outbound queue. The GUI `Application`
validates the two chosen paths in `check_and_queue_task` before enqueueing.

The embedding below models the filesystem as a flat list of entries (path,
identity node for `os.path.samefile`, directory flag, number of children for
`os.listdir`, readability for OS-level errors), and the OS / stdlib
primitives the program consumes (`os.path.exists`, `os.path.isdir`,
`os.path.samefile`, `os.listdir`, `os.rmdir`, `shutil.move`,
`subprocess.check_call` of the mklink command) as functions over that model,
with fallible calls returning `Except`. The worker loop is embedded as a
function over the finite list of dequeue results (one per loop iteration:
either a 0.1 s timeout or a task) observed before `stop_thread` is seen set;
the flag is read only at the top of the `while` loop, exactly as in the code.
-/

namespace JunctionGui

/-- One filesystem entry. `node` is the underlying identity used by
`os.path.samefile`; `childCount` is the length of `os.listdir`;
`readable = false` makes `os.listdir` raise an `OSError`. -/
structure Entry where
  path : String
  node : Nat
  isDirectory : Bool
  childCount : Nat
  readable : Bool
deriving DecidableEq, Repr

/-- Filesystem model: the entries, plus the exit behaviour of the external
`mklink` command (`linkCmdFails = true` models a non-zero exit status, which
`subprocess.check_call` turns into a raised `CalledProcessError`). -/
structure FS where
  entries : List Entry
  linkCmdFails : Bool
deriving DecidableEq, Repr

/-- Resolve a path to its entry. The empty path never resolves
(`os.stat("")` always fails with ENOENT, so `os.path.exists("")` and
`os.path.isdir("")` are both `False` in Python). -/
def resolve (fs : FS) (p : String) : Option Entry :=
  if p = "" then none else fs.entries.find? (fun e => e.path == p)

/-- Model of `os.path.exists`. -/
def pexists (fs : FS) (p : String) : Bool :=
  (resolve fs p).isSome

/-- Model of `os.path.isdir`: `False` for missing paths and non-directories,
never raises. -/
def isdir (fs : FS) (p : String) : Bool :=
  match resolve fs p with
  | some e => e.isDirectory
  | none => false

/-- Model of `os.path.samefile`: both paths must resolve (else OSError);
returns whether they denote the same underlying entry. -/
def samefile (fs : FS) (a b : String) : Except String Bool :=
  match resolve fs a, resolve fs b with
  | some x, some y => .ok (x.node == y.node)
  | _, _ => .error "samefile: no such file or directory"

/-- Model of `os.listdir`, returning the number of entries; raises on a
missing path, a non-directory, or a permission error. -/
def os_listdir (fs : FS) (p : String) : Except String Nat :=
  match resolve fs p with
  | none => .error "listdir: no such file or directory"
  | some e =>
    if ¬ e.isDirectory then .error "listdir: not a directory"
    else if ¬ e.readable then .error "listdir: permission denied"
    else .ok e.childCount

/-- `dir_is_empty` (src line 45): `len(os.listdir(path)) == 0`. -/
def dir_is_empty (fs : FS) (p : String) : Except String Bool :=
  (os_listdir fs p).map (fun n => n == 0)

/-- Model of `os.rmdir`: raises on a missing path, a non-directory, or a
non-empty directory; on success removes exactly the entry at `p`. -/
def os_rmdir (fs : FS) (p : String) : Except String FS :=
  match resolve fs p with
  | none => .error "rmdir: no such file or directory"
  | some e =>
    if ¬ e.isDirectory then .error "rmdir: not a directory"
    else if e.childCount ≠ 0 then .error "rmdir: directory not empty"
    else .ok { fs with entries := fs.entries.filter (fun x => x.path ≠ p) }

/-- Last path component, for `shutil.move` into an existing directory. -/
def baseName (p : String) : String :=
  (p.splitOn "/").getLastD p

/-- Model of `shutil.move src dst`: raises if `src` is missing; if `dst`
does not exist the entry at `src` is renamed to `dst`; if `dst` is an
existing directory the entry is moved inside it (renamed to
`dst/basename src`, incrementing `dst`'s child count); an existing
non-directory destination raises. -/
def shutil_move (fs : FS) (src dst : String) : Except String FS :=
  match resolve fs src with
  | none => .error "move: no such file or directory"
  | some _ =>
    match resolve fs dst with
    | none =>
      .ok { fs with
            entries := fs.entries.map
              (fun x => if x.path = src then { x with path := dst } else x) }
    | some t =>
      if t.isDirectory then
        .ok { fs with
              entries := fs.entries.map
                (fun x =>
                  if x.path = src then { x with path := dst ++ "/" ++ baseName src }
                  else if x.path = dst then { x with childCount := x.childCount + 1 }
                  else x) }
      else .error "move: destination exists"

/-- Is `c` one of the two characters `cmd.exe` reinterprets, `%` or `!`
(the character class of the regex in `escape_path_for_cmd`)? -/
def isSpecialChar (c : Char) : Bool :=
  c == '%' || c == '!'

/-- Embedding of `re.sub(r"([^%!]+)", r'"\1"', path)`: each maximal run of
characters other than `%` and `!` is wrapped in a pair of double quotes;
`%` and `!` themselves are passed through unquoted. `inRun` records whether
a quoted run is currently open. -/
def quoteRuns : Bool → List Char → List Char
  | inRun, [] => if inRun then ['"'] else []
  | inRun, c :: cs =>
    if isSpecialChar c then
      (if inRun then ['"'] else []) ++ c :: quoteRuns false cs
    else
      (if inRun then [] else ['"']) ++ c :: quoteRuns true cs

/-- Python `str.replace` for a single-character needle: every occurrence of
`needle` is replaced by `rep`. -/
def replaceChar (needle : Char) (rep : List Char) : List Char → List Char
  | [] => []
  | c :: cs => (if c = needle then rep else [c]) ++ replaceChar needle rep cs

/-- `escape_path_for_cmd` (src lines 49-51):
`re.sub(r"([^%!]+)", r'"\1"', path).replace("%", "^%").replace("!", "^!")`. -/
def escape_path_for_cmd (path : String) : String :=
  String.mk (replaceChar '!' ['^', '!']
    (replaceChar '%' ['^', '%']
      (quoteRuns false path.toList)))

/-- The command string handed to `subprocess.check_call` (src lines 78-84):
`"mklink /j %s %s" % (escape_path_for_cmd link, escape_path_for_cmd dest)`. -/
def mklinkCmd (linkName destPath : String) : String :=
  "mklink /j " ++ escape_path_for_cmd linkName ++ " " ++ escape_path_for_cmd destPath

/-- A node id not used by any entry, for the junction created by `mklink`. -/
def freshNode (fs : FS) : Nat :=
  (fs.entries.map (fun e => e.node)).foldr max 0 + 1

/-- Model of `subprocess.check_call("mklink /j ...", shell=True)`: fails when
the external command exits non-zero (environment-controlled via
`linkCmdFails`) or when the link location already exists (mklink refuses to
overwrite); on success a fresh junction entry appears at `linkName`. -/
def mklink (fs : FS) (linkName destPath : String) : Except String FS :=
  if fs.linkCmdFails then
    .error ("command failed: " ++ mklinkCmd linkName destPath)
  else if pexists fs linkName then
    .error ("command failed: " ++ mklinkCmd linkName destPath)
  else
    .ok { fs with
          entries := Entry.mk linkName (freshNode fs) true 0 true :: fs.entries }

/-- Step 1 of `Worker.run` (src lines 70-72): `if os.path.exists(dest_path):
os.rmdir(dest_path)`. -/
def clearTarget (fs : FS) (destPath : String) : Except String FS :=
  if pexists fs destPath then os_rmdir fs destPath else .ok fs

/-- The per-task result the worker puts on the result queue: the code puts
`(True, link_name, dest_path)` on success and `(e, link_name, dest_path)`
when any step raised `e`. -/
inductive Outcome where
  | success (linkName destPath : String)
  | failure (cause linkName destPath : String)
deriving DecidableEq, Repr

/-- The two path fields carried by an outcome. -/
def outcomePaths : Outcome → String × String
  | .success l d => (l, d)
  | .failure _ l d => (l, d)

/-- The body of `Worker.run`'s `try` block (src lines 69-91) for one dequeued
task: clear the target, move the directory, create the junction, in that
order; the first step to raise aborts the sequence, the exception becomes a
failure result, and the filesystem is left exactly as the failing step left
it (no rollback). Returns the filesystem after processing together with the
single result put on the result queue. -/
def processTask (fs : FS) (linkName destPath : String) : FS × Outcome :=
  match clearTarget fs destPath with
  | .error e => (fs, .failure e linkName destPath)
  | .ok fs1 =>
    match shutil_move fs1 linkName destPath with
    | .error e => (fs1, .failure e linkName destPath)
    | .ok fs2 =>
      match mklink fs2 linkName destPath with
      | .error e => (fs2, .failure e linkName destPath)
      | .ok fs3 => (fs3, .success linkName destPath)

/-- One loop iteration's dequeue result in `Worker.run`: either
`queue.Empty` after the 0.1 s timeout, or a task. -/
inductive Event where
  | timeout
  | task (linkName destPath : String)
deriving DecidableEq, Repr

/-- The tasks among a list of dequeue results, in order. -/
def tasksOf : List Event → List (String × String)
  | [] => []
  | .timeout :: es => tasksOf es
  | .task l d :: es => (l, d) :: tasksOf es

/-- `Worker.run` (src lines 61-91): the `while not self.stop_thread.is_set()`
loop, embedded over the finite list of dequeue results observed before the
flag is seen set. The flag is read only at the top of each iteration, so the
list ends exactly at a flag check; a task dequeued in the last iteration is
still fully processed and its result published before the loop exits.
Returns the final filesystem and the list of results put on the result
queue, in order. -/
def runLoop : List Event → FS → FS × List Outcome
  | [], fs => (fs, [])
  | .timeout :: es, fs => runLoop es fs
  | .task l d :: es, fs =>
    let r := processTask fs l d
    let rest := runLoop es r.1
    (rest.1, r.2 :: rest.2)

/-- The validation outcomes of `check_and_queue_task`, one per error dialog
in the code plus acceptance; `ioError` is the `except OSError` handler. -/
inductive ValidationError where
  | notADirectory (p : String)
  | samePath
  | targetNotEmpty
  | ioError (detail : String)
deriving DecidableEq, Repr

/-- Result of `check_and_queue_task`: `accepted` models `return True`,
`rejected` models an error dialog followed by `return False`. -/
inductive CheckResult where
  | accepted
  | rejected (e : ValidationError)
deriving DecidableEq, Repr

/-- `Application.check_and_queue_task` (src lines 254-286): the sanity
checks in source order, with every `OSError` raised by a check caught and
reported as its own outcome; returns the result together with the list of
tasks put on the task queue (`[(link, dest)]` exactly when all checks
pass, `[]` otherwise). -/
def check_and_queue_task (fs : FS) (linkName destPath : String) :
    CheckResult × List (String × String) :=
  if ¬ isdir fs linkName then
    (.rejected (.notADirectory linkName), [])
  else if pexists fs destPath then
    if ¬ isdir fs destPath then
      (.rejected (.notADirectory destPath), [])
    else
      match samefile fs linkName destPath with
      | .error e => (.rejected (.ioError e), [])
      | .ok true => (.rejected .samePath, [])
      | .ok false =>
        match dir_is_empty fs destPath with
        | .error e => (.rejected (.ioError e), [])
        | .ok false => (.rejected .targetNotEmpty, [])
        | .ok true => (.accepted, [(linkName, destPath)])
  else
    (.accepted, [(linkName, destPath)])

/-- `Application.maybe_enable_go_button` (src lines 196-198): the Go button —
the only trigger of `check_and_queue_task` — is enabled only when both path
strings are non-empty (`if self.link_name.get() and self.dest_name.get()`). -/
def goButtonEnabled (linkName destPath : String) : Bool :=
  linkName ≠ "" && destPath ≠ ""

/-- Two paths resolve to the same filesystem entry. -/
def sameEntry (fs : FS) (a b : String) : Prop :=
  ∃ ea eb, resolve fs a = some ea ∧ resolve fs b = some eb ∧ ea.node = eb.node

/-- The target exists and is a directory with at least one child. -/
def nonEmptyAt (fs : FS) (p : String) : Bool :=
  match resolve fs p with
  | some e => e.isDirectory && e.childCount != 0
  | none => false

/-- Validation order as written in the spec, section 4.2: (a) source exists
and is a directory, (b) an existing target is a directory, (c) when both
exist they are not the same entry, (d) an existing target is empty, (e) an
OS error during any check is its own outcome. Stated from the spec's words,
to be compared with `check_and_queue_task`. -/
def validateOrdered (fs : FS) (src tgt : String) : CheckResult :=
  if ¬ (pexists fs src && isdir fs src) then
    .rejected (.notADirectory src)
  else if pexists fs tgt && ¬ isdir fs tgt then
    .rejected (.notADirectory tgt)
  else
    match (if pexists fs src && pexists fs tgt then samefile fs src tgt else .ok false) with
    | .error e => .rejected (.ioError e)
    | .ok true => .rejected .samePath
    | .ok false =>
      match (if pexists fs tgt then dir_is_empty fs tgt else .ok true) with
      | .error e => .rejected (.ioError e)
      | .ok false => .rejected .targetNotEmpty
      | .ok true => .accepted

/-- The whole-path escaping described by the spec's words: prefix each
shell-significant character with `^`, then wrap the entire path in one pair
of quotes. Stated from the spec, to be compared with
`escape_path_for_cmd`. -/
def escapeForShell_specced (path : String) : String :=
  String.mk ('"' :: (replaceChar '!' ['^', '!']
    (replaceChar '%' ['^', '%'] path.toList)) ++ ['"'])

/-! ### Helper lemmas -/

theorem isdir_pexists (fs : FS) (p : String) (h : isdir fs p = true) :
    pexists fs p = true := by
  unfold isdir at h
  unfold pexists
  cases hres : resolve fs p with
  | none => rw [hres] at h; cases h
  | some e => rfl

theorem processTask_paths (fs : FS) (l d : String) :
    outcomePaths (processTask fs l d).2 = (l, d) := by
  simp only [processTask]
  split
  · rfl
  · split
    · rfl
    · split
      · rfl
      · rfl

theorem runLoop_outcomes (evs : List Event) (fs : FS) :
    ((runLoop evs fs).2).map outcomePaths = tasksOf evs := by
  induction evs generalizing fs with
  | nil => rfl
  | cons e es ih =>
    cases e with
    | timeout => simpa [runLoop, tasksOf] using ih fs
    | task l d =>
      simp [runLoop, tasksOf, ih, processTask_paths]

theorem tasksOf_append (a b : List Event) :
    tasksOf (a ++ b) = tasksOf a ++ tasksOf b := by
  induction a with
  | nil => rfl
  | cons e es ih =>
    cases e with
    | timeout => simpa [tasksOf] using ih
    | task l d => simp [tasksOf, ih]

theorem runLoop_timeouts (n : Nat) (fs : FS) :
    runLoop (List.replicate n Event.timeout) fs = (fs, []) := by
  induction n with
  | zero => rfl
  | succ m ih => simpa [List.replicate, runLoop] using ih

theorem replaceChar_id (needle : Char) (rep : List Char) (l : List Char)
    (h : ∀ c ∈ l, ¬ c = needle) :
    replaceChar needle rep l = l := by
  induction l with
  | nil => rfl
  | cons c cs ih =>
    have hc := h c (List.mem_cons_self c cs)
    simp only [replaceChar, if_neg hc, List.singleton_append, List.cons.injEq, true_and]
    exact ih (fun x hx => h x (List.mem_cons_of_mem c hx))

theorem not_special_ne (c : Char) (h : isSpecialChar c = false) :
    ¬ c = '%' ∧ ¬ c = '!' := by
  simpa [isSpecialChar] using h

theorem quoteRuns_true_no_special (cs : List Char)
    (h : ∀ c ∈ cs, isSpecialChar c = false) :
    quoteRuns true cs = cs ++ ['"'] := by
  induction cs with
  | nil => rfl
  | cons c cs ih =>
    have hc := h c (List.mem_cons_self c cs)
    have ih2 := ih (fun x hx => h x (List.mem_cons_of_mem c hx))
    simp [quoteRuns, hc, ih2]

theorem nonEmptyAt_resolve (fs : FS) (p : String) (h : nonEmptyAt fs p = true) :
    ∃ e, resolve fs p = some e ∧ e.isDirectory = true ∧ e.childCount ≠ 0 := by
  unfold nonEmptyAt at h
  cases hres : resolve fs p with
  | none => rw [hres] at h; cases h
  | some e =>
    rw [hres] at h
    refine ⟨e, rfl, ?_, ?_⟩
    · exact (Bool.and_eq_true_iff.mp h).1
    · have := (Bool.and_eq_true_iff.mp h).2
      simpa using this

theorem nonEmptyAt_pexists (fs : FS) (p : String) (h : nonEmptyAt fs p = true) :
    pexists fs p = true := by
  obtain ⟨e, hres, -, -⟩ := nonEmptyAt_resolve fs p h
  simp [pexists, hres]

theorem nonEmptyAt_listdir (fs : FS) (p : String) (h : nonEmptyAt fs p = true) :
    dir_is_empty fs p ≠ Except.ok true := by
  obtain ⟨e, hres, hdir, hcc⟩ := nonEmptyAt_resolve fs p h
  by_cases hr : e.readable = true
  · simp [dir_is_empty, os_listdir, hres, hdir, hr, Except.map, hcc]
  · simp [dir_is_empty, os_listdir, hres, hdir, hr, Except.map]

theorem check_enqueue_eq (fs : FS) (l d : String) :
    (check_and_queue_task fs l d).2
      = (match (check_and_queue_task fs l d).1 with
         | .accepted => [(l, d)]
         | .rejected _ => []) := by
  unfold check_and_queue_task
  repeat' split
  all_goals simp_all

/-! ### Example filesystems used by witnesses and counterexamples -/

/-- Example: the destination is a directory with one child, so the worker's
clear-target step fails. -/
def fsStep1Fail : FS := ⟨[⟨"d", 2, true, 1, true⟩], false⟩

/-- Example: empty filesystem, so the move step fails (source missing). -/
def fsMoveFail : FS := ⟨[], false⟩

/-- Example: source directory present, destination absent, and the external
mklink command exits non-zero. -/
def fsLinkFail : FS := ⟨[⟨"s", 1, true, 2, true⟩], true⟩

/-- The filesystem `fsLinkFail` after the move step (the source entry has
been renamed to the destination path): the state the failing mklink step
leaves behind. -/
def fsLinkFailMoved : FS := ⟨[⟨"d", 1, true, 2, true⟩], true⟩

/-! ### Claim theorems -/

/-- C1: for every request the worker dequeues, the three steps run in order
(clear target, move, create junction); whichever step raises first turns
into exactly `Failure(cause, sourcePath, targetPath)` with the filesystem
left exactly as the failing step left it (no rollback of completed steps),
and the loop goes on to process the remaining iterations. -/
theorem worker_failure_semantics : ∀ (fs : FS) (l d : String) (evs : List Event),
    ((runLoop (Event.task l d :: evs) fs).2
        = (processTask fs l d).2 :: (runLoop evs (processTask fs l d).1).2)
    ∧ (∀ e, clearTarget fs d = Except.error e →
        processTask fs l d = (fs, Outcome.failure e l d))
    ∧ (∀ fs1 e, clearTarget fs d = Except.ok fs1 → shutil_move fs1 l d = Except.error e →
        processTask fs l d = (fs1, Outcome.failure e l d))
    ∧ (∀ fs1 fs2 e, clearTarget fs d = Except.ok fs1 → shutil_move fs1 l d = Except.ok fs2 →
        mklink fs2 l d = Except.error e →
        processTask fs l d = (fs2, Outcome.failure e l d)) := by
  intro fs l d evs
  refine ⟨rfl, ?_, ?_, ?_⟩
  · intro e h
    simp [processTask, h]
  · intro fs1 e h1 h2
    simp [processTask, h1, h2]
  · intro fs1 fs2 e h1 h2 h3
    simp [processTask, h1, h2, h3]

/-- Witness for C1: the three failure modes at concrete filesystems — the
clear-target step failing on a non-empty destination, the move step failing
on a missing source, and the mklink step failing after a completed move
whose effect is retained in the final state. -/
theorem worker_failure_semantics_witness :
    processTask fsStep1Fail "s" "d"
        = (fsStep1Fail, Outcome.failure "rmdir: directory not empty" "s" "d")
    ∧ processTask fsMoveFail "s" "d"
        = (fsMoveFail, Outcome.failure "move: no such file or directory" "s" "d")
    ∧ processTask fsLinkFail "s" "d"
        = (fsLinkFailMoved,
           Outcome.failure ("command failed: " ++ mklinkCmd "s" "d") "s" "d") := by
  refine ⟨?_, ?_, ?_⟩
  · exact (worker_failure_semantics fsStep1Fail "s" "d" []).2.1
      "rmdir: directory not empty" rfl
  · exact (worker_failure_semantics fsMoveFail "s" "d" []).2.2.1
      fsMoveFail "move: no such file or directory" rfl rfl
  · exact (worker_failure_semantics fsLinkFail "s" "d" []).2.2.2
      fsLinkFail fsLinkFailMoved ("command failed: " ++ mklinkCmd "s" "d")
      rfl rfl rfl

/-- C6: across every run of the worker loop, exactly one outcome is
published per dequeued request — the outcome list maps one-to-one, in
order, onto the dequeued tasks — and each outcome carries the request's
source and destination paths unchanged, whether it is a success or a
failure. -/
theorem one_outcome_per_request : ∀ (evs : List Event) (fs : FS),
    ((runLoop evs fs).2).map outcomePaths = tasksOf evs :=
  runLoop_outcomes

/-- C8: the stop flag is read only between iterations, so a task dequeued in
the very last iteration before the flag is observed still has its outcome
published before the loop exits (first conjunct); and a worker that stays
idle (every receive times out) exits its loop with no outcomes and an
unchanged filesystem once the flag is set, so shutdown terminates without
blocking (second conjunct). -/
theorem stop_and_shutdown :
    (∀ (evs : List Event) (fs : FS) (l d : String),
        ((runLoop (evs ++ [Event.task l d]) fs).2).length = (tasksOf evs).length + 1)
    ∧ (∀ (n : Nat) (fs : FS), runLoop (List.replicate n Event.timeout) fs = (fs, [])) := by
  constructor
  · intro evs fs l d
    have h := congrArg List.length (runLoop_outcomes (evs ++ [Event.task l d]) fs)
    rw [List.length_map] at h
    rw [h, tasksOf_append]
    simp [tasksOf]
  · exact fun n fs => runLoop_timeouts n fs

/-- C10: escaping the empty path yields the empty string — no quotes are
added — so an empty destination reaches the mklink command line as zero
characters (a missing argument), not as an empty quoted string. -/
theorem escape_empty_argument :
    escape_path_for_cmd "" = "" ∧ mklinkCmd "a" "" = "mklink /j \"a\" " := by
  exact ⟨rfl, by decide⟩

/-- C2 counterexample: on the path `a%b` the function does not return the
path wrapped entirely in one pair of quotes with the `%` escaped inside
(which would be `"a^%b"`); it returns `"a"^%"b"` — each run of ordinary
characters quoted separately, the escaped `%` left outside the quotes. -/
theorem escape_whole_quoting_counterexample :
    escape_path_for_cmd "a%b" = "\"a\"^%\"b\""
    ∧ escape_path_for_cmd "a%b" ≠ escapeForShell_specced "a%b"
    ∧ escapeForShell_specced "a%b" = "\"a^%b\"" := by
  refine ⟨by decide, by decide, by decide⟩

/-- C2 amended: only for a non-empty path containing neither `%` nor `!`
does `escape_path_for_cmd` return the path wrapped entirely in quotes; a
path containing `%` or `!` has each maximal run of its other characters
wrapped in its own pair of quotes with the `^`-escaped `%` and `!` left
outside the quotes. -/
theorem escape_no_special_whole_quoted (p : String) (hne : p ≠ "")
    (hns : ∀ c ∈ p.toList, isSpecialChar c = false) :
    escape_path_for_cmd p = "\"" ++ p ++ "\"" := by
  cases p with
  | mk l =>
    cases l with
    | nil => exact absurd rfl hne
    | cons c cs =>
      have hc : isSpecialChar c = false := hns c (List.mem_cons_self c cs)
      have hcs : ∀ x ∈ cs, isSpecialChar x = false :=
        fun x hx => hns x (List.mem_cons_of_mem c hx)
      have h1 : quoteRuns false (c :: cs) = '"' :: c :: (cs ++ ['"']) := by
        simp [quoteRuns, hc, quoteRuns_true_no_special cs hcs]
      have hall : ∀ x ∈ '"' :: c :: (cs ++ ['"']), ¬ x = '%' ∧ ¬ x = '!' := by
        intro x hx
        rcases List.mem_cons.mp hx with h | hx
        · subst h; exact ⟨by decide, by decide⟩
        rcases List.mem_cons.mp hx with h | hx
        · subst h; exact not_special_ne _ hc
        rcases List.mem_append.mp hx with hx | hx
        · exact not_special_ne x (hcs x hx)
        · rw [List.mem_singleton.mp hx]; exact ⟨by decide, by decide⟩
      have h2 : replaceChar '%' ['^', '%'] ('"' :: c :: (cs ++ ['"']))
          = '"' :: c :: (cs ++ ['"']) :=
        replaceChar_id _ _ _ (fun x hx => (hall x hx).1)
      have h3 : replaceChar '!' ['^', '!'] ('"' :: c :: (cs ++ ['"']))
          = '"' :: c :: (cs ++ ['"']) :=
        replaceChar_id _ _ _ (fun x hx => (hall x hx).2)
      show String.mk (replaceChar '!' ['^', '!'] (replaceChar '%' ['^', '%']
        (quoteRuns false (String.mk (c :: cs)).toList))) = _
      rw [show (String.mk (c :: cs)).toList = c :: cs from rfl, h1, h2, h3]
      rfl

/-- Witness for C2's amended statement at the path `ab`. -/
theorem escape_no_special_whole_quoted_witness :
    escape_path_for_cmd "ab" = "\"ab\"" :=
  escape_no_special_whole_quoted "ab" (by decide) (by decide)

/-- Example: source and destination are distinct directories, destination
has two children (validation stops at the emptiness check). -/
def fsBothDirs : FS := ⟨[⟨"s", 1, true, 1, true⟩, ⟨"d", 2, true, 2, true⟩], false⟩

/-- Example: an empty destination directory plus an unrelated entry. -/
def fsEmptyTarget : FS := ⟨[⟨"d", 1, true, 0, true⟩, ⟨"x", 2, true, 0, true⟩], false⟩

/-- The filesystem `fsEmptyTarget` after a successful clear-target step. -/
def fsEmptyTargetCleared : FS := ⟨[⟨"x", 2, true, 0, true⟩], false⟩

/-- Example: only the source directory exists. -/
def fsSourceOnly : FS := ⟨[⟨"a", 1, true, 1, true⟩], false⟩

/-- C3: `check_and_queue_task`'s validation coincides, on every filesystem
and pair of paths, with the spec's ordered short-circuiting checks a–d with
OS errors reported as the distinct `ioError` outcome (`validateOrdered`,
written from the spec's words); and a task is enqueued exactly when the
result is `accepted`, so on any failure nothing reaches the worker. -/
theorem validation_order_and_enqueue : ∀ (fs : FS) (l d : String),
    (check_and_queue_task fs l d).1 = validateOrdered fs l d
    ∧ (check_and_queue_task fs l d).2
        = (match (check_and_queue_task fs l d).1 with
           | .accepted => [(l, d)]
           | .rejected _ => []) := by
  intro fs l d
  refine ⟨?_, check_enqueue_eq fs l d⟩
  by_cases hl : isdir fs l = true
  · have hpl : pexists fs l = true := isdir_pexists fs l hl
    by_cases hd : pexists fs d = true
    · by_cases hdd : isdir fs d = true
      · cases hsf : samefile fs l d with
        | error e => simp [check_and_queue_task, validateOrdered, hl, hpl, hd, hdd, hsf]
        | ok b =>
          cases b with
          | true => simp [check_and_queue_task, validateOrdered, hl, hpl, hd, hdd, hsf]
          | false =>
            cases hde : dir_is_empty fs d with
            | error e =>
              simp [check_and_queue_task, validateOrdered, hl, hpl, hd, hdd, hsf, hde]
            | ok bb =>
              cases bb with
              | true =>
                simp [check_and_queue_task, validateOrdered, hl, hpl, hd, hdd, hsf, hde]
              | false =>
                simp [check_and_queue_task, validateOrdered, hl, hpl, hd, hdd, hsf, hde]
      · simp [check_and_queue_task, validateOrdered, hl, hpl, hd, hdd]
    · simp [check_and_queue_task, validateOrdered, hl, hpl, hd]
  · simp [check_and_queue_task, validateOrdered, hl]

/-- C4 counterexample: destination `d` exists and is a non-empty directory,
but the source `s` is not a directory, so validation returns
`notADirectory s` — not `targetNotEmpty` — refuting the unconditional
claim. -/
theorem target_not_empty_counterexample :
    nonEmptyAt fsStep1Fail "d" = true
    ∧ (check_and_queue_task fsStep1Fail "s" "d").1
        = CheckResult.rejected (ValidationError.notADirectory "s")
    ∧ (check_and_queue_task fsStep1Fail "s" "d").1
        ≠ CheckResult.rejected ValidationError.targetNotEmpty := by
  refine ⟨by decide, by decide, by decide⟩

/-- C4 amended: when the earlier checks pass — the source is a directory,
the destination exists, is a directory, is not the same entry, and its
listing reports it non-empty — validation returns `targetNotEmpty` with
nothing enqueued; and whenever the destination exists and is non-empty,
whatever error is reported, no request is pushed onto the worker's inbound
queue. -/
theorem target_not_empty_rejects : ∀ (fs : FS) (l d : String),
    (isdir fs l = true → pexists fs d = true → isdir fs d = true →
      samefile fs l d = Except.ok false → dir_is_empty fs d = Except.ok false →
      check_and_queue_task fs l d = (CheckResult.rejected ValidationError.targetNotEmpty, []))
    ∧ (nonEmptyAt fs d = true → (check_and_queue_task fs l d).2 = []) := by
  intro fs l d
  constructor
  · intro hl hd hdd hsf hde
    simp [check_and_queue_task, hl, hd, hdd, hsf, hde]
  · intro hne
    have hd := nonEmptyAt_pexists fs d hne
    have hlist := nonEmptyAt_listdir fs d hne
    by_cases hl : isdir fs l = true
    · by_cases hdd : isdir fs d = true
      · cases hsf : samefile fs l d with
        | error e => simp [check_and_queue_task, hl, hd, hdd, hsf]
        | ok b =>
          cases b with
          | true => simp [check_and_queue_task, hl, hd, hdd, hsf]
          | false =>
            cases hde : dir_is_empty fs d with
            | error e => simp [check_and_queue_task, hl, hd, hdd, hsf, hde]
            | ok bb =>
              cases bb with
              | true => exact absurd hde hlist
              | false => simp [check_and_queue_task, hl, hd, hdd, hsf, hde]
      · simp [check_and_queue_task, hl, hd, hdd]
    · simp [check_and_queue_task, hl]

/-- Witness for C4's amended statement: both paths are directories, the
destination has two children, and validation rejects with `targetNotEmpty`
and enqueues nothing. -/
theorem target_not_empty_rejects_witness :
    check_and_queue_task fsBothDirs "s" "d"
        = (CheckResult.rejected ValidationError.targetNotEmpty, [])
    ∧ (check_and_queue_task fsBothDirs "s" "d").2 = [] := by
  constructor
  · exact (target_not_empty_rejects fsBothDirs "s" "d").1
      (by decide) (by decide) (by decide) rfl rfl
  · exact (target_not_empty_rejects fsBothDirs "s" "d").2 (by decide)

/-- C5: the worker's clear-target step only removes an empty directory — if
the destination exists with at least one child the step raises instead of
recursing — and a successful removal deletes nothing except the destination
entry itself, so no entry other than the target is ever removed by this
step. -/
theorem clear_target_guard : ∀ (fs : FS) (d : String),
    (∀ ent, resolve fs d = some ent → ent.childCount ≠ 0 →
      ∃ e, clearTarget fs d = Except.error e)
    ∧ (∀ fs1, clearTarget fs d = Except.ok fs1 →
        ∀ x ∈ fs.entries, x.path ≠ d → x ∈ fs1.entries) := by
  intro fs d
  constructor
  · intro ent hres hcc
    have hp : pexists fs d = true := by simp [pexists, hres]
    by_cases hdir : ent.isDirectory = true
    · exact ⟨"rmdir: directory not empty",
        by simp [clearTarget, hp, os_rmdir, hres, hdir, hcc]⟩
    · exact ⟨"rmdir: not a directory",
        by simp [clearTarget, hp, os_rmdir, hres, hdir]⟩
  · intro fs1 hok x hx hne
    unfold clearTarget at hok
    by_cases hp : pexists fs d = true
    · rw [if_pos hp] at hok
      unfold os_rmdir at hok
      split at hok
      · exact Except.noConfusion hok
      · split at hok
        · exact Except.noConfusion hok
        · split at hok
          · exact Except.noConfusion hok
          · injection hok with h
            rw [← h]
            simp only [List.mem_filter]
            exact ⟨hx, by simp [hne]⟩
    · rw [if_neg hp] at hok
      injection hok with h
      rw [← h]
      exact hx

/-- Witness for C5: at `fsStep1Fail` the non-empty destination makes the
clear-target step raise; at `fsEmptyTarget` the removal succeeds and the
unrelated entry `x` survives. -/
theorem clear_target_guard_witness :
    (∃ e, clearTarget fsStep1Fail "d" = Except.error e)
    ∧ Entry.mk "x" 2 true 0 true ∈ fsEmptyTargetCleared.entries := by
  constructor
  · exact (clear_target_guard fsStep1Fail "d").1 (Entry.mk "d" 2 true 1 true)
      rfl (by decide)
  · exact (clear_target_guard fsEmptyTarget "d").2 fsEmptyTargetCleared rfl
      (Entry.mk "x" 2 true 0 true) (by decide) (by decide)

/-- C7: any request the coordinator enqueues while the Go button's
enablement condition holds (both path strings non-empty) carries non-empty
source and destination strings that do not resolve to the same filesystem
entry. -/
theorem request_invariant : ∀ (fs : FS) (l d : String) (req : String × String),
    goButtonEnabled l d = true →
    req ∈ (check_and_queue_task fs l d).2 →
    req.1 ≠ "" ∧ req.2 ≠ "" ∧ ¬ sameEntry fs req.1 req.2 := by
  intro fs l d req hgo hmem
  have hln : l ≠ "" ∧ d ≠ "" := by simpa [goButtonEnabled] using hgo
  by_cases hl : isdir fs l = true
  · by_cases hd : pexists fs d = true
    · by_cases hdd : isdir fs d = true
      · cases hsf : samefile fs l d with
        | error e => simp [check_and_queue_task, hl, hd, hdd, hsf] at hmem
        | ok b =>
          cases b with
          | true => simp [check_and_queue_task, hl, hd, hdd, hsf] at hmem
          | false =>
            cases hde : dir_is_empty fs d with
            | error e => simp [check_and_queue_task, hl, hd, hdd, hsf, hde] at hmem
            | ok bb =>
              cases bb with
              | false => simp [check_and_queue_task, hl, hd, hdd, hsf, hde] at hmem
              | true =>
                have hreq : req = (l, d) := by
                  simpa [check_and_queue_task, hl, hd, hdd, hsf, hde] using hmem
                subst hreq
                refine ⟨hln.1, hln.2, ?_⟩
                rintro ⟨ea, eb, hea, heb, hnn⟩
                unfold samefile at hsf
                rw [hea, heb] at hsf
                injection hsf with h
                simp [hnn] at h
      · simp [check_and_queue_task, hl, hd, hdd] at hmem
    · have hreq : req = (l, d) := by
        simpa [check_and_queue_task, hl, hd] using hmem
      subst hreq
      refine ⟨hln.1, hln.2, ?_⟩
      rintro ⟨ea, eb, hea, heb, hnn⟩
      exact hd (by simp [pexists, heb])
  · simp [check_and_queue_task, hl] at hmem

/-- Witness for C7: with only the source directory `a` present and a
non-empty destination string `b`, the enqueued request `(a, b)` has
non-empty, non-aliasing paths. -/
theorem request_invariant_witness :
    "a" ≠ "" ∧ "b" ≠ "" ∧ ¬ sameEntry fsSourceOnly "a" "b" :=
  request_invariant fsSourceOnly "a" "b" ("a", "b") (by decide) (by decide)

/-- C9: validation alone is side-effect free — it is a read-only function of
the filesystem (its Lean embedding consumes the filesystem without
producing a new one) — so two calls on the same inputs with an unchanged
filesystem report one and the same validation error, and a rejecting call
enqueues nothing. -/
theorem validation_idempotent : ∀ (fs : FS) (l d : String) (e1 e2 : ValidationError),
    (check_and_queue_task fs l d).1 = CheckResult.rejected e1 →
    (check_and_queue_task fs l d).1 = CheckResult.rejected e2 →
    e1 = e2 ∧ (check_and_queue_task fs l d).2 = [] := by
  intro fs l d e1 e2 h1 h2
  constructor
  · rw [h1] at h2
    simpa using h2
  · simp [check_enqueue_eq fs l d, h1]

/-- Witness for C9: two identical rejecting calls on `fsStep1Fail` agree on
the error and enqueue nothing. -/
theorem validation_idempotent_witness :
    ValidationError.notADirectory "s" = ValidationError.notADirectory "s"
    ∧ (check_and_queue_task fsStep1Fail "s" "d").2 = [] :=
  validation_idempotent fsStep1Fail "s" "d"
    (ValidationError.notADirectory "s") (ValidationError.notADirectory "s")
    (by decide) (by decide)

end JunctionGui
